import Mathlib

/-!
Shallow embedding of the ruma membership-projection and transaction-store core
(`src/room_membership.rs`, `src/models/transaction.rs`).

The PostgreSQL database reached through diesel is modelled as an explicit
`Db` state: the `events` table, the `room_memberships` table and the
`transactions` table are lists of rows; each operation takes the state and
returns its result together with the successor state.  `RoomMembership::create`
runs inside `connection.transaction`, so its embedding restores the original
state whenever the body errors; `update_room_membership_events` has no such
wrapper in the source and therefore keeps whatever partial writes happened.

Infrastructure (storage/IO) failures of individual SQL write statements are
modelled by a fault schedule inside `Db`: `fault_at = some k` makes the
`k`-th write statement of the run fail with a storage error, `fault_at = none`
means the infrastructure never fails.  Fresh event identifiers
(`EventId::new`) are modelled by a counter `next_event_id`; `created_at`
(a database `now()` default) by a fixed `now` field.
-/

namespace Ruma

/-- Error taxonomy of `ApiError` (`error.rs` is not part of the given slice;
the constructors follow the spec taxonomy and the uses in the given code:
`ApiError::not_found`, the unique-key conflict, `ApiError::unauthorized`,
the serde `Serialization` failure and storage/IO failures). -/
inductive ApiError where
  | not_found : ApiError
  | conflict : ApiError
  | unauthorized : Option String → ApiError
  | serialization : ApiError
  | storage : ApiError
deriving DecidableEq, Repr

/-- Membership states of `ruma_events::room::member::MembershipState`. -/
inductive MembershipState where
  | ban : MembershipState
  | invite : MembershipState
  | join : MembershipState
  | knock : MembershipState
  | leave : MembershipState
deriving DecidableEq, Repr

/-- Deserialization of a JSON string into `MembershipState`
(`serde_json::from_value` on `Value::String`, lowercase renaming). -/
def MembershipState.fromString : String → Option MembershipState
  | "ban" => some .ban
  | "invite" => some .invite
  | "join" => some .join
  | "knock" => some .knock
  | "leave" => some .leave
  | _ => none

/-- Join rules of `ruma_events::room::join_rules::JoinRule`. -/
inductive JoinRule where
  | invite : JoinRule
  | knock : JoinRule
  | private_rule : JoinRule
  | public : JoinRule
deriving DecidableEq, Repr

/-- Content of a member event (`MemberEventContent`): the profile snapshot
and the membership value. -/
structure MemberEventContent where
  avatar_url : Option String
  displayname : Option String
  membership : MembershipState
deriving DecidableEq, Repr

/-- A membership-state event row of the `events` table, as constructed by this
core (`MemberEvent` converted through `NewEvent`).  `event_type` is always
`m.room.member` for these rows and is left implicit; `id` is the event
identifier the projection rows reference. -/
structure StoredEvent where
  id : Nat
  room_id : String
  state_key : String
  user_id : String
  content : MemberEventContent
deriving DecidableEq, Repr

/-- A row of the `room_memberships` table (struct `RoomMembership`). -/
structure RoomMembership where
  event_id : Nat
  room_id : String
  user_id : String
  sender : String
  membership : String
  created_at : Int
deriving DecidableEq, Repr

/-- Argument record of `RoomMembership::create`
(struct `RoomMembershipOptions`). -/
structure RoomMembershipOptions where
  room_id : String
  user_id : String
  sender : String
  membership : String
deriving DecidableEq, Repr

/-- A row of the `transactions` table (struct `Transaction`), primary key
`(path, access_token)`. -/
structure Transaction where
  path : String
  access_token : String
  response : String
deriving DecidableEq, Repr

/-- A profile row as consumed by this core (`Profile` is external; only
`avatar_url` and `displayname` of a user are read). -/
structure Profile where
  user_id : String
  avatar_url : Option String
  displayname : Option String
deriving DecidableEq, Repr

/-- The current join-rules state event of a room, as returned by the external
event-log lookup: only `content.join_rule` is consumed. -/
structure JoinRulesRow where
  room_id : String
  join_rule : JoinRule
deriving DecidableEq, Repr

/-- The database state: the three tables owned or read by this core, the
external join-rules state events and profiles, the fresh-identifier counter,
the clock, and the storage fault schedule. -/
structure Db where
  events : List StoredEvent
  room_memberships : List RoomMembership
  transactions : List Transaction
  join_rules : List JoinRulesRow
  profiles : List Profile
  next_event_id : Nat
  now : Int
  fault_at : Option Nat
  writes_done : Nat
deriving DecidableEq, Repr

/-- Gate every SQL write statement through the fault schedule: the write
numbered `fault_at` fails with a storage error, every other write goes
through. -/
def Db.writeGate (db : Db) : Except ApiError Db :=
  if db.fault_at = some db.writes_done then .error ApiError.storage
  else .ok { db with writes_done := db.writes_done + 1 }

/-- First `room_memberships` row for `(room_id, user_id)` (the `.first` query
inside `RoomMembership::find`). -/
def Db.memFind (db : Db) (room_id user_id : String) : Option RoomMembership :=
  db.room_memberships.find? fun r => r.room_id == room_id && r.user_id == user_id

/-- Lookup of the current join-rules state event of a room. -/
def Db.joinRuleFind (db : Db) (room_id : String) : Option JoinRulesRow :=
  db.join_rules.find? fun jr => jr.room_id == room_id

/-- Profile lookup by user (external `Profile::find_by_user_id`); absence is
an empty result. -/
def Db.profileFind (db : Db) (user_id : String) : Option Profile :=
  db.profiles.find? fun p => p.user_id == user_id

/-- Insert one row into the `events` table (one gated SQL write). -/
def Db.insertEvent (db : Db) (ev : StoredEvent) : Except ApiError Db :=
  match db.writeGate with
  | .error e => .error e
  | .ok db1 => .ok { db1 with events := db1.events ++ [ev] }

/-- Insert one row into the `room_memberships` table and return it
(`insert ... get_result`); the unique key `(room_id, user_id)` rejects a
duplicate with a conflict, otherwise the write is gated. -/
def Db.insertMembership (db : Db) (row : RoomMembership) :
    Except ApiError (RoomMembership × Db) :=
  if db.room_memberships.any fun r =>
      r.room_id == row.room_id && r.user_id == row.user_id then
    .error ApiError.conflict
  else
    match db.writeGate with
    | .error e => .error e
    | .ok db1 => .ok (row, { db1 with room_memberships := db1.room_memberships ++ [row] })

/-- Modelled from the spec: `Event::find_room_join_rules_by_room_id` lives in
`event.rs`, which is not part of the given slice.  The spec describes it as
the external event-log operation `findLatestStateEvent(room_id, type) →
Event | NotFound`; the caller in `create` uses `?` on its `Result`, so the
NotFound outcome is an error here. -/
def Event.find_room_join_rules_by_room_id (db : Db) (room_id : String) :
    Except ApiError JoinRulesRow :=
  match db.joinRuleFind room_id with
  | some jr => .ok jr
  | none => .error ApiError.not_found

/-- Return `RoomMembership` for given `RoomId` and `UserId`
(`RoomMembership::find`): the NotFound outcome of `.first` is recovered into
`none`. -/
def RoomMembership.find (db : Db) (room_id user_id : String) :
    Except ApiError (Option RoomMembership) :=
  .ok (db.memFind room_id user_id)

/-- Return the `RoomMembership` rows of a user
(`RoomMembership::find_by_user_id`): `get_results` yields the matching rows,
an empty list when there are none. -/
def RoomMembership.find_by_user_id (db : Db) (user_id : String) :
    Except ApiError (List RoomMembership) :=
  .ok (db.room_memberships.filter fun r => r.user_id == user_id)

/-- Body of `RoomMembership::create`, the closure passed to
`connection.transaction`: find an existing row, read the join rules, either
return the existing row, reject an uninvited foreign sender, or build and
persist the member event and the projection row. -/
def RoomMembership.createBody (db : Db) (opts : RoomMembershipOptions) :
    Except ApiError (RoomMembership × Db) :=
  let room_membership := db.memFind opts.room_id opts.user_id
  match Event.find_room_join_rules_by_room_id db opts.room_id with
  | .error e => .error e
  | .ok join_rules_event =>
    match room_membership with
    | some rm => .ok (rm, db)
    | none =>
      if opts.user_id ≠ opts.sender ∧ join_rules_event.join_rule = JoinRule.invite then
        .error (ApiError.unauthorized (some "You are not invited to this room."))
      else
        let event_id := db.next_event_id
        let db1 := { db with next_event_id := db.next_event_id + 1 }
        match MembershipState.fromString opts.membership with
        | none => .error ApiError.serialization
        | some membership =>
          let profile := db1.profileFind opts.user_id
          let avatar_url := match profile with
            | some p => p.avatar_url
            | none => none
          let displayname := match profile with
            | some p => p.displayname
            | none => none
          let new_event : StoredEvent :=
            { id := event_id, room_id := opts.room_id, state_key := "",
              user_id := opts.user_id,
              content := { avatar_url := avatar_url, displayname := displayname,
                           membership := membership } }
          match db1.insertEvent new_event with
          | .error e => .error e
          | .ok db2 =>
            let new_row : RoomMembership :=
              { event_id := event_id, room_id := opts.room_id,
                user_id := opts.user_id, sender := opts.sender,
                membership := opts.membership, created_at := db2.now }
            match db2.insertMembership new_row with
            | .error e => .error e
            | .ok rowDb => .ok rowDb

/-- Creates a new room membership in the database (`RoomMembership::create`).
The body runs inside `connection.transaction`: on an error the database is
rolled back to its state at entry.  The homeserver domain only feeds the
opaque event-identifier generator. -/
def RoomMembership.create (db : Db) (homeserver_domain : String)
    (opts : RoomMembershipOptions) : Except ApiError RoomMembership × Db :=
  let _ := homeserver_domain
  match RoomMembership.createBody db opts with
  | .ok (rm, db1) => (.ok rm, db1)
  | .error e => (.error e, db)

/-- Update a `RoomMembership` entry (`RoomMembership::update`): one SQL
`UPDATE` setting `event_id` on every row matching `(room_id, user_id)` of
`self`; the in-memory argument itself is not changed by the source. -/
def RoomMembership.update (self : RoomMembership) (db : Db) (event_id : Nat) :
    Except ApiError Unit × Db :=
  match db.writeGate with
  | .error e => (.error e, db)
  | .ok db1 =>
    (.ok (), { db1 with room_memberships := db1.room_memberships.map fun r =>
        if r.room_id == self.room_id && r.user_id == self.user_id then
          { r with event_id := event_id }
        else r })

/-- Update room membership events
(`RoomMembership::update_room_membership_events`): generate a fresh event id,
re-parse the stored membership value, append a member event carrying the given
profile, then point the row at the new event.  The source wraps this in no
transaction, so an error keeps the writes already performed. -/
def RoomMembership.update_room_membership_events (db : Db)
    (homeserver_domain : String) (room_membership : RoomMembership)
    (profile : Profile) : Except ApiError Unit × Db :=
  let _ := homeserver_domain
  let event_id := db.next_event_id
  let db1 := { db with next_event_id := db.next_event_id + 1 }
  match MembershipState.fromString room_membership.membership with
  | none => (.error ApiError.serialization, db1)
  | some membership =>
    let new_event : StoredEvent :=
      { id := event_id, room_id := room_membership.room_id, state_key := "",
        user_id := room_membership.user_id,
        content := { avatar_url := profile.avatar_url,
                     displayname := profile.displayname,
                     membership := membership } }
    match db1.insertEvent new_event with
    | .error e => (.error e, db1)
    | .ok db2 =>
      match RoomMembership.update room_membership db2 event_id with
      | (.error e, db3) => (.error e, db3)
      | (.ok _, db3) => (.ok (), db3)

/-- Return member events for a given room
(`RoomMembership::get_events_by_room`): select the `event_id` column of the
rooms projection rows, then load every `events` row whose id is any of them.
`get_results` yields however many rows match; an id that resolves to no event
contributes nothing. -/
def RoomMembership.get_events_by_room (db : Db) (room_id : String) :
    Except ApiError (List StoredEvent) :=
  let event_ids := (db.room_memberships.filter fun r => r.room_id == room_id).map
    fun r => r.event_id
  .ok (db.events.filter fun e => event_ids.contains e.id)

/-- Create a new transaction entry (`Transaction::create`): an `INSERT` whose
unique key `(path, access_token)` rejects a duplicate with a conflict;
otherwise the write is gated and the inserted row is returned. -/
def Transaction.create (db : Db) (path access_token response : String) :
    Except ApiError Transaction × Db :=
  if db.transactions.any fun t =>
      t.path == path && t.access_token == access_token then
    (.error ApiError.conflict, db)
  else
    match db.writeGate with
    | .error e => (.error e, db)
    | .ok db1 =>
      (.ok { path := path, access_token := access_token, response := response },
       { db1 with transactions := db1.transactions ++
          [{ path := path, access_token := access_token, response := response }] })

/-- Look up a transaction by endpoint path and access token
(`Transaction::find`): the NotFound outcome is recovered into `none`. -/
def Transaction.find (db : Db) (path access_token : String) :
    Except ApiError (Option Transaction) :=
  .ok (db.transactions.find? fun t =>
    t.path == path && t.access_token == access_token)

/-! Concrete states used by the counterexamples and the witnesses. -/

/-- A database holding nothing but an invite-only join rule for room
`!r:d`, with a fault-free schedule. -/
def sampleDb : Db :=
  { events := [], room_memberships := [], transactions := [],
    join_rules := [{ room_id := "!r:d", join_rule := JoinRule.invite }],
    profiles := [], next_event_id := 0, now := 0, fault_at := none,
    writes_done := 0 }

/-- A projection row for `(!r:d, @u:d)` pointing at event `5`. -/
def sampleRow : RoomMembership :=
  { event_id := 5, room_id := "!r:d", user_id := "@u:d", sender := "@u:d",
    membership := "join", created_at := 0 }

/-- Options naming the pair `(!r:d, @u:d)` with a self-join. -/
def sampleOpts : RoomMembershipOptions :=
  { room_id := "!r:d", user_id := "@u:d", sender := "@u:d",
    membership := "join" }

/-- A profile for `@u:d`. -/
def sampleProfile : Profile :=
  { user_id := "@u:d", avatar_url := some "mxc://a", displayname := some "N" }

/-- The sample database with the sample row already present. -/
def occupiedDb : Db :=
  { sampleDb with room_memberships := [sampleRow] }

/-- A database for the atomicity scenario: the sample row is present, the
fresh-id counter stands at 10, and the fault schedule fails the second SQL
write statement of the run. -/
def faultyDb : Db :=
  { sampleDb with
    room_memberships := [sampleRow], fault_at := some 1,
    next_event_id := 10 }

end Ruma

namespace Ruma

/-- A successful pass through the write gate changes no table and no other
field apart from the statement counter. -/
theorem writeGate_ok_tables (db db1 : Db) (h : db.writeGate = .ok db1) :
    db1.events = db.events ∧ db1.room_memberships = db.room_memberships ∧
    db1.transactions = db.transactions ∧ db1.join_rules = db.join_rules ∧
    db1.profiles = db.profiles ∧ db1.next_event_id = db.next_event_id ∧
    db1.now = db.now ∧ db1.fault_at = db.fault_at := by
  unfold Db.writeGate at h
  split at h
  · exact absurd h (by simp)
  · rw [Except.ok.injEq] at h
    subst h
    exact ⟨rfl, rfl, rfl, rfl, rfl, rfl, rfl, rfl⟩

/-- The write gate passes whenever the fault schedule is empty. -/
theorem writeGate_ok_of_fault_none (db : Db) (h : db.fault_at = none) :
    db.writeGate = .ok { db with writes_done := db.writes_done + 1 } := by
  unfold Db.writeGate
  rw [if_neg]
  rw [h]
  simp

/-- A join-rules row found in the state makes the modelled event-log lookup
succeed with that row. -/
theorem find_join_rules_of_some (db : Db) (room_id : String) (jr : JoinRulesRow)
    (h : db.joinRuleFind room_id = some jr) :
    Event.find_room_join_rules_by_room_id db room_id = .ok jr := by
  unfold Event.find_room_join_rules_by_room_id
  rw [h]

/-- A successful modelled event-log lookup exposes the join-rules row found
in the state. -/
theorem find_join_rules_ok_inv (db : Db) (room_id : String) (jr : JoinRulesRow)
    (h : Event.find_room_join_rules_by_room_id db room_id = .ok jr) :
    db.joinRuleFind room_id = some jr := by
  unfold Event.find_room_join_rules_by_room_id at h
  split at h
  · rename_i heq
    rw [Except.ok.injEq] at h
    rw [← h]
    exact heq
  · exact absurd h (by simp)

/-- A successful event insert appends exactly that event and leaves every
other part of the state alone. -/
theorem insertEvent_ok_inv (db : Db) (ev : StoredEvent) (db1 : Db)
    (h : db.insertEvent ev = .ok db1) :
    db1.events = db.events ++ [ev] ∧
    db1.room_memberships = db.room_memberships ∧
    db1.transactions = db.transactions ∧ db1.join_rules = db.join_rules ∧
    db1.profiles = db.profiles ∧ db1.next_event_id = db.next_event_id ∧
    db1.now = db.now := by
  unfold Db.insertEvent at h
  cases hg : db.writeGate with
  | error e => rw [hg] at h; exact absurd h (by simp)
  | ok db0 =>
    rw [hg] at h
    rw [Except.ok.injEq] at h
    obtain ⟨hev, hrm, htx, hjr, hpr, hni, hnow, _⟩ := writeGate_ok_tables db db0 hg
    subst h
    exact ⟨by rw [hev], hrm, htx, hjr, hpr, hni, hnow⟩

/-- A successful membership-row insert returns exactly the inserted row,
appends it, and leaves every other part of the state alone. -/
theorem insertMembership_ok_inv (db : Db) (row rm1 : RoomMembership) (db1 : Db)
    (h : db.insertMembership row = .ok (rm1, db1)) :
    rm1 = row ∧ db1.room_memberships = db.room_memberships ++ [row] ∧
    db1.events = db.events ∧ db1.transactions = db.transactions ∧
    db1.join_rules = db.join_rules ∧ db1.profiles = db.profiles ∧
    db1.next_event_id = db.next_event_id ∧ db1.now = db.now := by
  unfold Db.insertMembership at h
  split at h
  · exact absurd h (by simp)
  · cases hg : db.writeGate with
    | error e => rw [hg] at h; exact absurd h (by simp)
    | ok db0 =>
      rw [hg] at h
      rw [Except.ok.injEq, Prod.mk.injEq] at h
      obtain ⟨hrm1, hdb⟩ := h
      obtain ⟨hev, hrm, htx, hjr, hpr, hni, hnow, _⟩ := writeGate_ok_tables db db0 hg
      subst hdb
      exact ⟨hrm1.symm, by rw [hrm], hev, htx, hjr, hpr, hni, hnow⟩

/-- With a fault-free schedule an event insert succeeds and appends the
event. -/
theorem insertEvent_of_fault_none (db : Db) (ev : StoredEvent)
    (h : db.fault_at = none) :
    db.insertEvent ev = .ok { db with
      writes_done := db.writes_done + 1,
      events := db.events ++ [ev] } := by
  unfold Db.insertEvent
  rw [writeGate_ok_of_fault_none db h]

/-- With a fault-free schedule and no row for the key, a membership-row
insert succeeds and appends the row. -/
theorem insertMembership_of_no_dup (db : Db) (row : RoomMembership)
    (hdup : (db.room_memberships.any fun r =>
      r.room_id == row.room_id && r.user_id == row.user_id) = false)
    (h : db.fault_at = none) :
    db.insertMembership row = .ok (row,
      { db with
        writes_done := db.writes_done + 1,
        room_memberships := db.room_memberships ++ [row] }) := by
  unfold Db.insertMembership
  rw [if_neg (by rw [hdup]; simp), writeGate_ok_of_fault_none db h]

/-- The row update touches only the `room_memberships` table. -/
theorem update_preserves_other_tables (self : RoomMembership) (db : Db)
    (eid : Nat) :
    (RoomMembership.update self db eid).2.events = db.events ∧
    (RoomMembership.update self db eid).2.transactions = db.transactions ∧
    (RoomMembership.update self db eid).2.join_rules = db.join_rules := by
  unfold RoomMembership.update
  cases hg : db.writeGate with
  | error e => exact ⟨rfl, rfl, rfl⟩
  | ok db0 =>
    obtain ⟨hev, _, htx, hjr, _⟩ := writeGate_ok_tables db db0 hg
    exact ⟨hev, htx, hjr⟩

/-- Inversion of a successful `createBody`: the join-rules lookup succeeded,
and either an existing row was returned with the state untouched, or no row
existed and exactly one member event with an empty state key plus one row
keyed by the options were appended. -/
theorem createBody_ok_inv (db : Db) (opts : RoomMembershipOptions)
    (rm1 : RoomMembership) (db1 : Db)
    (h : RoomMembership.createBody db opts = .ok (rm1, db1)) :
    (∃ jr, db.joinRuleFind opts.room_id = some jr) ∧
    ((db.memFind opts.room_id opts.user_id = some rm1 ∧ db1 = db) ∨
     (db.memFind opts.room_id opts.user_id = none ∧
      rm1.room_id = opts.room_id ∧ rm1.user_id = opts.user_id ∧
      db1.room_memberships = db.room_memberships ++ [rm1] ∧
      (∃ ev, db1.events = db.events ++ [ev] ∧ ev.state_key = "") ∧
      db1.join_rules = db.join_rules ∧
      db1.transactions = db.transactions)) := by
  unfold RoomMembership.createBody at h
  dsimp only at h
  split at h
  · exact absurd h (by simp)
  · rename_i jre hjre
    refine ⟨⟨jre, find_join_rules_ok_inv db opts.room_id jre hjre⟩, ?_⟩
    split at h
    · rename_i rm hrm
      rw [Except.ok.injEq, Prod.mk.injEq] at h
      exact Or.inl ⟨by rw [hrm, h.1], h.2.symm⟩
    · rename_i hrm
      split at h
      · exact absurd h (by simp)
      · split at h
        · exact absurd h (by simp)
        · rename_i m hm
          split at h
          · exact absurd h (by simp)
          · rename_i db2 hins
            split at h
            · exact absurd h (by simp)
            · rename_i rowDb hmem
              obtain ⟨hevs, hrms, htxs, hjrs, hprs, hnis, hnows⟩ :=
                insertEvent_ok_inv _ _ _ hins
              rw [Except.ok.injEq] at h
              obtain ⟨hrow, hrmem, hev2, htx2, hjr2, hpr2, hni2, hnow2⟩ :=
                insertMembership_ok_inv db2 _ rm1 db1 (by rw [← h]; exact hmem)
              refine Or.inr ⟨hrm, by rw [hrow], by rw [hrow], ?_, ?_, ?_, ?_⟩
              · rw [hrmem, hrms, hrow]
              · exact ⟨_, by rw [hev2, hevs], rfl⟩
              · rw [hjr2, hjrs]
              · rw [htx2, htxs]

/-- C5: a successful `Transaction::create(p, t, r)` followed by
`Transaction::find(p, t)` yields a present transaction whose response is
exactly `r` (and whose key is `(p, t)`). -/
theorem transaction_create_find_round_trip (db : Db) (p t r : String)
    (tx : Transaction) (db1 : Db)
    (h : Transaction.create db p t r = (.ok tx, db1)) :
    Transaction.find db1 p t = .ok (some tx) ∧ tx.response = r := by
  unfold Transaction.create at h
  split at h
  · exact absurd h (by simp)
  · rename_i hany
    split at h
    · exact absurd h (by simp)
    · rename_i db0 heq
      rw [Prod.mk.injEq, Except.ok.injEq] at h
      obtain ⟨htx, hdb⟩ := h
      subst htx
      subst hdb
      refine ⟨?_, rfl⟩
      have htx0 : db0.transactions = db.transactions :=
        (writeGate_ok_tables db db0 heq).2.2.1
      have hnone : db.transactions.find?
          (fun t' => t'.path == p && t'.access_token == t) = none := by
        rw [List.find?_eq_none]
        intro x hx hpx
        rw [Bool.not_eq_true] at hany
        rw [List.any_eq_false] at hany
        exact hany x hx hpx
      unfold Transaction.find
      dsimp only
      rw [htx0, List.find?_append, hnone, Option.none_or,
        List.find?_cons_of_pos _ (by simp)]

/-- C5 witness: creating and re-finding the pair `(p, t)` in the sample
database returns the stored response `r`. -/
theorem transaction_create_find_round_trip_witness :
    Transaction.find (Transaction.create sampleDb "p" "t" "r").2 "p" "t"
        = .ok (some { path := "p", access_token := "t", response := "r" }) ∧
    ({ path := "p", access_token := "t", response := "r" } : Transaction).response = "r" :=
  transaction_create_find_round_trip sampleDb "p" "t" "r" _ _ rfl

/-- C6: when a transaction row keyed `(p, t)` already exists, a second
`Transaction::create(p, t, r2)` fails with a Conflict error and the
`transactions` table, hence the stored response for `(p, t)`, is unchanged. -/
theorem transaction_create_conflict (db : Db) (p t r2 : String)
    (x : Transaction) (hx : x ∈ db.transactions) (hp : x.path = p)
    (ht : x.access_token = t) :
    (Transaction.create db p t r2).1 = .error ApiError.conflict ∧
    (Transaction.create db p t r2).2.transactions = db.transactions := by
  have hany : (db.transactions.any fun t' =>
      t'.path == p && t'.access_token == t) = true :=
    List.any_eq_true.2 ⟨x, hx, by simp [hp, ht]⟩
  unfold Transaction.create
  rw [if_pos hany]
  exact ⟨rfl, rfl⟩

/-- C6 witness: re-creating the key `(p, t)` with a different response fails
with Conflict and leaves the single stored row in place. -/
theorem transaction_create_conflict_witness :
    (Transaction.create (Transaction.create sampleDb "p" "t" "r").2 "p" "t" "r2").1
        = .error ApiError.conflict ∧
    (Transaction.create (Transaction.create sampleDb "p" "t" "r").2 "p" "t" "r2").2.transactions
        = (Transaction.create sampleDb "p" "t" "r").2.transactions :=
  transaction_create_conflict (Transaction.create sampleDb "p" "t" "r").2 "p" "t" "r2"
    { path := "p", access_token := "t", response := "r" } (by decide) rfl rfl

/-- C8: absence is an empty result, never an error: `Transaction::find` on an
absent key returns `Ok(None)`, `RoomMembership::find` on an absent pair
returns `Ok(None)`, and `RoomMembership::find_by_user_id` for a user without
rows returns `Ok([])`. -/
theorem lookup_absence_is_not_an_error (db : Db) (p t rid uid u2 : String) :
    ((∀ x ∈ db.transactions, ¬(x.path = p ∧ x.access_token = t)) →
      Transaction.find db p t = .ok none) ∧
    ((∀ x ∈ db.room_memberships, ¬(x.room_id = rid ∧ x.user_id = uid)) →
      RoomMembership.find db rid uid = .ok none) ∧
    ((∀ x ∈ db.room_memberships, x.user_id ≠ u2) →
      RoomMembership.find_by_user_id db u2 = .ok []) := by
  refine ⟨fun habs => ?_, fun habs => ?_, fun habs => ?_⟩
  · unfold Transaction.find
    have : db.transactions.find?
        (fun x => x.path == p && x.access_token == t) = none := by
      rw [List.find?_eq_none]
      intro x hx hpx
      simp only [Bool.and_eq_true, beq_iff_eq] at hpx
      exact habs x hx hpx
    rw [this]
  · unfold RoomMembership.find Db.memFind
    have : db.room_memberships.find?
        (fun x => x.room_id == rid && x.user_id == uid) = none := by
      rw [List.find?_eq_none]
      intro x hx hpx
      simp only [Bool.and_eq_true, beq_iff_eq] at hpx
      exact habs x hx hpx
    rw [this]
  · unfold RoomMembership.find_by_user_id
    have : db.room_memberships.filter (fun x => x.user_id == u2) = [] := by
      rw [List.filter_eq_nil_iff]
      intro x hx hpx
      exact habs x hx (by simpa using hpx)
    rw [this]

/-- C4 counterexample: in a state whose only projection row for room `!r:d`
references event `5` while the `events` table is empty, the claim predicts a
consistency-violation (internal) error, but `get_events_by_room` succeeds
with the empty list, silently omitting the rows entry. -/
theorem get_events_by_room_dangling_counterexample :
    RoomMembership.get_events_by_room
      { sampleDb with room_memberships := [sampleRow] } "!r:d" = .ok [] := by
  rfl

/-- C4 amended: `get_events_by_room` never fails on a dangling reference; it
returns exactly the stored events whose id is referenced by some projection
row of the room, so a row whose `event_id` resolves to no event is silently
omitted instead of raising an error. -/
theorem get_events_by_room_fan_out (db : Db) (room_id : String)
    (e : StoredEvent) :
    ∃ evs, RoomMembership.get_events_by_room db room_id = .ok evs ∧
      (e ∈ evs ↔ e ∈ db.events ∧ ∃ row, row ∈ db.room_memberships ∧
        row.room_id = room_id ∧ row.event_id = e.id) := by
  refine ⟨_, rfl, ?_⟩
  rw [List.mem_filter]
  constructor
  · rintro ⟨he, hc⟩
    refine ⟨he, ?_⟩
    have hc1 : List.elem e.id
        (((db.room_memberships.filter fun r => r.room_id == room_id).map
          fun r => r.event_id)) = true := hc
    rw [List.elem_eq_mem] at hc1
    have hc2 := of_decide_eq_true hc1
    obtain ⟨row, hrowf, hrid⟩ := List.mem_map.1 hc2
    obtain ⟨hrowm, hrr⟩ := List.mem_filter.1 hrowf
    exact ⟨row, hrowm, by simpa using hrr, hrid⟩
  · rintro ⟨he, row, hrowm, hrr, hrid⟩
    refine ⟨he, ?_⟩
    have hc2 : e.id ∈ ((db.room_memberships.filter fun r =>
        r.room_id == room_id).map fun r => r.event_id) :=
      List.mem_map.2 ⟨row, List.mem_filter.2 ⟨hrowm, by simpa using hrr⟩,
        hrid⟩
    show List.elem e.id _ = true
    rw [List.elem_eq_mem]
    exact decide_eq_true hc2

/-- C3: the code is not atomic.  In `faultyDb` the stored membership parses,
the member-event insert (write 0) succeeds, and the row update (write 1)
fails with a storage error; because `update_room_membership_events` is not
wrapped in `connection.transaction`, the call errors while the new event
(id 10) stays durably appended and the row still points at event 5 — a
partial write the claim forbids. -/
theorem update_events_not_atomic :
    (RoomMembership.update_room_membership_events faultyDb "example.com"
        sampleRow sampleProfile).1 = .error ApiError.storage ∧
    (RoomMembership.update_room_membership_events faultyDb "example.com"
        sampleRow sampleProfile).2.events =
      [{ id := 10, room_id := "!r:d", state_key := "", user_id := "@u:d",
         content := { avatar_url := some "mxc://a", displayname := some "N",
                      membership := MembershipState.join } }] ∧
    (RoomMembership.update_room_membership_events faultyDb "example.com"
        sampleRow sampleProfile).2.room_memberships = [sampleRow] := by
  refine ⟨rfl, rfl, rfl⟩

/-- C9: every membership-state event this core appends — through
`RoomMembership::create` and through `update_room_membership_events` — has
its `state_key` set to the empty string, never to the affected user. -/
theorem membership_events_have_empty_state_key (db : Db) (d : String)
    (opts : RoomMembershipOptions) (rm : RoomMembership) (prof : Profile)
    (e : StoredEvent) :
    (e ∈ (RoomMembership.create db d opts).2.events →
      e ∈ db.events ∨ e.state_key = "") ∧
    (e ∈ (RoomMembership.update_room_membership_events db d rm prof).2.events →
      e ∈ db.events ∨ e.state_key = "") := by
  constructor
  · intro he
    unfold RoomMembership.create at he
    cases hcb : RoomMembership.createBody db opts with
    | error err => rw [hcb] at he; exact Or.inl he
    | ok p =>
      obtain ⟨rm1, db1⟩ := p
      rw [hcb] at he
      obtain ⟨-, hcase⟩ := createBody_ok_inv db opts rm1 db1 hcb
      rcases hcase with ⟨-, hdb⟩ | ⟨-, -, -, -, ⟨ev, hev, hsk⟩, -, -⟩
      · rw [hdb] at he
        exact Or.inl he
      · rw [hev] at he
        rcases List.mem_append.1 he with h1 | h1
        · exact Or.inl h1
        · rw [List.mem_singleton] at h1
          subst h1
          exact Or.inr hsk
  · intro he
    unfold RoomMembership.update_room_membership_events at he
    dsimp only at he
    cases hms : MembershipState.fromString rm.membership with
    | none =>
      rw [hms] at he
      exact Or.inl he
    | some m =>
      rw [hms] at he
      dsimp only at he
      cases hie : Db.insertEvent { db with next_event_id := db.next_event_id + 1 }
          { id := db.next_event_id, room_id := rm.room_id, state_key := "",
            user_id := rm.user_id,
            content := { avatar_url := prof.avatar_url,
                         displayname := prof.displayname,
                         membership := m } } with
      | error err =>
        rw [hie] at he
        exact Or.inl he
      | ok db2 =>
        rw [hie] at he
        dsimp only at he
        obtain ⟨hevs, -, -, -, -, -, -⟩ := insertEvent_ok_inv _ _ _ hie
        cases hupd : RoomMembership.update rm db2 db.next_event_id with
        | mk res db3 =>
          have hdb3 : db3.events = db2.events := by
            have := (update_preserves_other_tables rm db2 db.next_event_id).1
            rw [hupd] at this
            exact this
          rw [hupd] at he
          cases res with
          | error err =>
            dsimp only at he
            rw [hdb3, hevs] at he
            rcases List.mem_append.1 he with h1 | h1
            · exact Or.inl h1
            · rw [List.mem_singleton] at h1
              subst h1
              exact Or.inr rfl
          | ok u =>
            dsimp only at he
            rw [hdb3, hevs] at he
            rcases List.mem_append.1 he with h1 | h1
            · exact Or.inl h1
            · rw [List.mem_singleton] at h1
              subst h1
              exact Or.inr rfl

/-- C9 witness: the event appended by a concrete successful `create` carries
the empty state key. -/
theorem membership_events_have_empty_state_key_witness :
    ({ id := 0, room_id := "!r:d", state_key := "", user_id := "@u:d",
       content := { avatar_url := none, displayname := none,
                    membership := MembershipState.join } } : StoredEvent)
      ∈ (RoomMembership.create sampleDb "example.com" sampleOpts).2.events ∧
    (({ id := 0, room_id := "!r:d", state_key := "", user_id := "@u:d",
        content := { avatar_url := none, displayname := none,
                     membership := MembershipState.join } } : StoredEvent)
        ∈ sampleDb.events ∨
      ({ id := 0, room_id := "!r:d", state_key := "", user_id := "@u:d",
         content := { avatar_url := none, displayname := none,
                      membership := MembershipState.join } } : StoredEvent).state_key
        = "") :=
  ⟨by decide,
   (membership_events_have_empty_state_key sampleDb "example.com" sampleOpts
      sampleRow sampleProfile _).1 (by decide)⟩

/-- C10 counterexample: with an invite-only room, no existing row, a foreign
sender and the unparsable membership string `bogus`, the claim predicts a
Serialization error, but `create` fails with Unauthorized because the
authorization check runs before the membership value is parsed. -/
theorem unparsable_membership_counterexample :
    (RoomMembership.create sampleDb "example.com"
      { room_id := "!r:d", user_id := "@u:d", sender := "@other:d",
        membership := "bogus" }).1
      = .error (ApiError.unauthorized (some "You are not invited to this room.")) := by
  rfl

/-- C10 amended: when no row exists, the join-rules lookup succeeds and the
authorization check passes (self-join or a join rule other than invite-only),
an unparsable membership string makes `create` fail with a Serialization
error and leave the state untouched; `update_room_membership_events` on a row
whose stored membership does not parse fails with a Serialization error
before performing any write. -/
theorem unparsable_membership_serialization (db : Db) (d : String)
    (opts : RoomMembershipOptions) (rm : RoomMembership) (prof : Profile) :
    (MembershipState.fromString opts.membership = none →
      db.memFind opts.room_id opts.user_id = none →
      ∀ jr, db.joinRuleFind opts.room_id = some jr →
      (opts.user_id = opts.sender ∨ jr.join_rule ≠ JoinRule.invite) →
      RoomMembership.create db d opts = (.error ApiError.serialization, db)) ∧
    (MembershipState.fromString rm.membership = none →
      (RoomMembership.update_room_membership_events db d rm prof).1
          = .error ApiError.serialization ∧
      (RoomMembership.update_room_membership_events db d rm prof).2.events
          = db.events ∧
      (RoomMembership.update_room_membership_events db d rm prof).2.room_memberships
          = db.room_memberships ∧
      (RoomMembership.update_room_membership_events db d rm prof).2.transactions
          = db.transactions) := by
  constructor
  · intro hparse hnone jr hjr hauth
    unfold RoomMembership.create RoomMembership.createBody
    rw [find_join_rules_of_some db opts.room_id jr hjr]
    dsimp only
    rw [hnone]
    dsimp only
    rw [if_neg (by rcases hauth with h | h <;> simp [h]), hparse]
  · intro hparse
    unfold RoomMembership.update_room_membership_events
    dsimp only
    rw [hparse]
    exact ⟨rfl, rfl, rfl, rfl⟩

/-- C10 witness: a self-join with membership string `bogus` into the sample
invite-only room fails with Serialization and writes nothing; so does a
profile refresh of a row whose stored membership is `bogus`. -/
theorem unparsable_membership_serialization_witness :
    RoomMembership.create sampleDb "example.com"
        { sampleOpts with membership := "bogus" }
      = (.error ApiError.serialization, sampleDb) ∧
    (RoomMembership.update_room_membership_events sampleDb "example.com"
        { sampleRow with membership := "bogus" } sampleProfile).1
      = .error ApiError.serialization :=
  ⟨(unparsable_membership_serialization sampleDb "example.com"
      { sampleOpts with membership := "bogus" }
      { sampleRow with membership := "bogus" } sampleProfile).1
      rfl rfl { room_id := "!r:d", join_rule := JoinRule.invite } rfl
      (Or.inl rfl),
   ((unparsable_membership_serialization sampleDb "example.com"
      { sampleOpts with membership := "bogus" }
      { sampleRow with membership := "bogus" } sampleProfile).2 rfl).1⟩

/-- An existing row for the pair, together with a resolvable join-rules
event, makes `create` return that row and leave the state untouched. -/
theorem create_returns_existing_row (db : Db) (d : String)
    (opts : RoomMembershipOptions) (row : RoomMembership) (jr : JoinRulesRow)
    (hrow : db.memFind opts.room_id opts.user_id = some row)
    (hjr : db.joinRuleFind opts.room_id = some jr) :
    RoomMembership.create db d opts = (.ok row, db) := by
  unfold RoomMembership.create RoomMembership.createBody
  rw [find_join_rules_of_some db opts.room_id jr hjr]
  dsimp only
  rw [hrow]

/-- C1 counterexample: in a state where a row for `(!r:d, @u:d)` exists but
the room has no join-rules state event, the claim predicts that `create`
returns the existing row, yet the unconditional join-rules read makes it fail
with a not-found error instead. -/
theorem create_idempotency_counterexample :
    (RoomMembership.create
      { sampleDb with join_rules := [], room_memberships := [sampleRow] }
      "example.com" sampleOpts).1 = .error ApiError.not_found := by
  rfl

/-- C1 amended: provided the rooms join-rules state event resolves, `create`
on a pair that already has a row returns that row unchanged with no writes;
consequently a second `create` with the same options after a successful one
returns the same row and changes nothing, and a successful `create` from a
rowless state adds exactly one row and one event. -/
theorem create_membership_idempotent (db : Db) (d : String)
    (opts : RoomMembershipOptions) :
    (∀ row jr, db.memFind opts.room_id opts.user_id = some row →
      db.joinRuleFind opts.room_id = some jr →
      RoomMembership.create db d opts = (.ok row, db)) ∧
    (∀ row db1, RoomMembership.create db d opts = (.ok row, db1) →
      RoomMembership.create db1 d opts = (.ok row, db1)) ∧
    (∀ row db1, db.memFind opts.room_id opts.user_id = none →
      RoomMembership.create db d opts = (.ok row, db1) →
      db1.room_memberships.length = db.room_memberships.length + 1 ∧
      db1.events.length = db.events.length + 1) := by
  refine ⟨fun row jr hrow hjr => create_returns_existing_row db d opts row jr hrow hjr,
    ?_, ?_⟩
  · intro row db1 h
    unfold RoomMembership.create at h
    cases hcb : RoomMembership.createBody db opts with
    | error e => rw [hcb] at h; exact absurd h (by simp)
    | ok p =>
      obtain ⟨rm1, dbx⟩ := p
      rw [hcb] at h
      dsimp only at h
      rw [Prod.mk.injEq, Except.ok.injEq] at h
      obtain ⟨h1, h2⟩ := h
      rw [h1, h2] at hcb
      obtain ⟨⟨jr, hjr⟩, hcase⟩ := createBody_ok_inv db opts row db1 hcb
      rcases hcase with ⟨hsome, hdb⟩ | ⟨hnone, hrid, huid, hrms, -, hjrs, -⟩
      · rw [hdb]
        exact create_returns_existing_row db d opts row jr hsome hjr
      · have hmem : db1.memFind opts.room_id opts.user_id = some row := by
          unfold Db.memFind
          rw [hrms, List.find?_append]
          have h0 : db.room_memberships.find? (fun r =>
              r.room_id == opts.room_id && r.user_id == opts.user_id) = none :=
            hnone
          rw [h0, Option.none_or,
            List.find?_cons_of_pos _ (by simp [hrid, huid])]
        have hjr1 : db1.joinRuleFind opts.room_id = some jr := by
          unfold Db.joinRuleFind
          rw [hjrs]
          exact hjr
        exact create_returns_existing_row db1 d opts row jr hmem hjr1
  · intro row db1 hnone h
    unfold RoomMembership.create at h
    cases hcb : RoomMembership.createBody db opts with
    | error e => rw [hcb] at h; exact absurd h (by simp)
    | ok p =>
      obtain ⟨rm1, dbx⟩ := p
      rw [hcb] at h
      dsimp only at h
      rw [Prod.mk.injEq, Except.ok.injEq] at h
      obtain ⟨h1, h2⟩ := h
      rw [h1, h2] at hcb
      obtain ⟨-, hcase⟩ := createBody_ok_inv db opts row db1 hcb
      rcases hcase with ⟨hsome, -⟩ | ⟨-, -, -, hrms, ⟨ev, hev, -⟩, -, -⟩
      · rw [hnone] at hsome
        exact absurd hsome (by simp)
      · constructor
        · simp [hrms]
        · simp [hev]

/-- C1 witness: creating for a pair that already has a row, in a room whose
join rule resolves, returns the existing row and the unchanged state. -/
theorem create_membership_idempotent_witness :
    RoomMembership.create occupiedDb "example.com" sampleOpts
      = (.ok sampleRow, occupiedDb) :=
  (create_membership_idempotent occupiedDb "example.com" sampleOpts).1
    sampleRow { room_id := "!r:d", join_rule := JoinRule.invite } rfl rfl

/-- C2: in an invite-only room with no existing row, `create` fails with
Unauthorized and writes nothing exactly when the target user differs from the
sender; a self-join (with a well-formed membership value and a fault-free
store) succeeds and appends exactly one row and one event. -/
theorem create_invite_only_authorization (db : Db) (d : String)
    (opts : RoomMembershipOptions) (jr : JoinRulesRow)
    (hnone : db.memFind opts.room_id opts.user_id = none)
    (hjr : db.joinRuleFind opts.room_id = some jr)
    (hinv : jr.join_rule = JoinRule.invite) :
    (opts.user_id ≠ opts.sender →
      RoomMembership.create db d opts
        = (.error (ApiError.unauthorized
            (some "You are not invited to this room.")), db)) ∧
    (opts.user_id = opts.sender →
      ∀ m, MembershipState.fromString opts.membership = some m →
      db.fault_at = none →
      ∃ row db1, RoomMembership.create db d opts = (.ok row, db1) ∧
        db1.room_memberships = db.room_memberships ++ [row] ∧
        row.room_id = opts.room_id ∧ row.user_id = opts.user_id ∧
        row.sender = opts.sender ∧
        (∃ ev, db1.events = db.events ++ [ev]) ∧
        db1.transactions = db.transactions) := by
  constructor
  · intro hne
    unfold RoomMembership.create RoomMembership.createBody
    rw [find_join_rules_of_some db opts.room_id jr hjr]
    dsimp only
    rw [hnone]
    dsimp only
    rw [if_pos ⟨hne, hinv⟩]
  · intro heq m hm hf
    have hdup : (db.room_memberships.any fun r =>
        r.room_id == opts.room_id && r.user_id == opts.user_id) = false := by
      rw [List.any_eq_false]
      intro x hx
      exact List.find?_eq_none.1 hnone x hx
    unfold RoomMembership.create RoomMembership.createBody
    rw [find_join_rules_of_some db opts.room_id jr hjr]
    dsimp only
    rw [hnone]
    dsimp only
    rw [if_neg (by simp [heq]), hm]
    dsimp only
    simp only [insertEvent_of_fault_none, hf, insertMembership_of_no_dup, hdup]
    exact ⟨_, _, rfl, rfl, rfl, rfl, rfl, ⟨_, rfl⟩, rfl⟩

/-- C2 witness: a foreign sender joining the sample invite-only room is
rejected with Unauthorized and the state is returned untouched. -/
theorem create_invite_only_authorization_witness :
    RoomMembership.create sampleDb "example.com"
        { sampleOpts with sender := "@other:d" }
      = (.error (ApiError.unauthorized
          (some "You are not invited to this room.")), sampleDb) :=
  (create_invite_only_authorization sampleDb "example.com"
      { sampleOpts with sender := "@other:d" }
      { room_id := "!r:d", join_rule := JoinRule.invite } rfl rfl rfl).1
    (by decide)

/-- C7: a profile refresh on an existing row (whose stored membership parses,
with a fault-free store) succeeds; the appended event carries the rows
existing membership value and the given profiles avatar and display name,
every rows fields other than `event_id` stay unchanged (the update is a
per-row pointer rewrite), no row is added or removed, and the transactions
table is untouched. -/
theorem update_membership_profile_refresh_frame (db : Db) (d : String)
    (rm : RoomMembership) (prof : Profile) (m : MembershipState)
    (_hrm : rm ∈ db.room_memberships)
    (hparse : MembershipState.fromString rm.membership = some m)
    (hf : db.fault_at = none) :
    ∃ eid ev db1,
      RoomMembership.update_room_membership_events db d rm prof
        = (.ok (), db1) ∧
      ev.id = eid ∧ ev.room_id = rm.room_id ∧ ev.user_id = rm.user_id ∧
      ev.content.membership = m ∧
      ev.content.avatar_url = prof.avatar_url ∧
      ev.content.displayname = prof.displayname ∧
      db1.events = db.events ++ [ev] ∧
      db1.room_memberships = db.room_memberships.map (fun r =>
        if r.room_id == rm.room_id && r.user_id == rm.user_id then
          { r with event_id := eid } else r) ∧
      db1.room_memberships.length = db.room_memberships.length ∧
      db1.transactions = db.transactions := by
  unfold RoomMembership.update_room_membership_events
  dsimp only
  rw [hparse]
  dsimp only
  unfold RoomMembership.update
  simp only [insertEvent_of_fault_none, writeGate_ok_of_fault_none, hf]
  refine ⟨db.next_event_id, _, _, rfl, rfl, rfl, rfl, rfl, rfl, rfl, rfl,
    rfl, ?_, rfl⟩
  rw [List.length_map]

/-- C7 witness: refreshing the sample rows profile in `occupiedDb` succeeds
and satisfies every frame condition at those concrete values. -/
theorem update_membership_profile_refresh_frame_witness :
    (sampleRow ∈ occupiedDb.room_memberships ∧
     MembershipState.fromString sampleRow.membership
        = some MembershipState.join ∧
     occupiedDb.fault_at = none) ∧
    (∃ eid ev db1,
      RoomMembership.update_room_membership_events occupiedDb "example.com"
          sampleRow sampleProfile = (.ok (), db1) ∧
      ev.id = eid ∧ ev.room_id = sampleRow.room_id ∧
      ev.user_id = sampleRow.user_id ∧
      ev.content.membership = MembershipState.join ∧
      ev.content.avatar_url = sampleProfile.avatar_url ∧
      ev.content.displayname = sampleProfile.displayname ∧
      db1.events = occupiedDb.events ++ [ev] ∧
      db1.room_memberships = occupiedDb.room_memberships.map (fun r =>
        if r.room_id == sampleRow.room_id && r.user_id == sampleRow.user_id then
          { r with event_id := eid } else r) ∧
      db1.room_memberships.length = occupiedDb.room_memberships.length ∧
      db1.transactions = occupiedDb.transactions) :=
  ⟨⟨by decide, rfl, rfl⟩,
   update_membership_profile_refresh_frame occupiedDb "example.com" sampleRow
     sampleProfile MembershipState.join (by decide) rfl rfl⟩

/-- C8 witness: every lookup on the sample database, which holds no rows,
returns the empty result. -/
theorem lookup_absence_is_not_an_error_witness :
    Transaction.find sampleDb "p" "t" = .ok none ∧
    RoomMembership.find sampleDb "!r:d" "@u:d" = .ok none ∧
    RoomMembership.find_by_user_id sampleDb "@u:d" = .ok [] :=
  ⟨(lookup_absence_is_not_an_error sampleDb "p" "t" "!r:d" "@u:d" "@u:d").1
      (by decide),
   (lookup_absence_is_not_an_error sampleDb "p" "t" "!r:d" "@u:d" "@u:d").2.1
      (by decide),
   (lookup_absence_is_not_an_error sampleDb "p" "t" "!r:d" "@u:d" "@u:d").2.2
      (by decide)⟩

end Ruma
